import Mathlib

/-
Verification development for the WhatsApp bridge core:
the protocol client adapter (Baileys wrapper, `WhatsAppClient`) and the
relay server (`BridgeServer`).  Each definition is a shallow embedding of
the corresponding TypeScript function; JavaScript truthiness on optional
strings (undefined and "" are falsy) is modelled by `optTruthy`.
-/

/-- Key fields of a raw Baileys message (`msg.key`). -/
structure MsgKey where
  fromMe : Bool
  remoteJid : Option String
  remoteJidAlt : Option String
  id : Option String
deriving DecidableEq

/-- `extendedTextMessage` part of a payload (reply / link preview text). -/
structure ExtendedTextMessage where
  text : Option String
deriving DecidableEq

/-- A captioned media part (`imageMessage`, `videoMessage`, `documentMessage`). -/
structure MediaMessage where
  caption : Option String
deriving DecidableEq

/-- The heterogeneous `msg.message` payload delivered by the library.
`audioMessage` records only presence, which is all the code inspects. -/
structure MessagePayload where
  conversation : Option String
  extendedTextMessage : Option ExtendedTextMessage
  imageMessage : Option MediaMessage
  videoMessage : Option MediaMessage
  documentMessage : Option MediaMessage
  audioMessage : Bool
deriving DecidableEq

/-- A raw inbound Baileys message as seen by the `messages.upsert` handler. -/
structure WAMessage where
  key : MsgKey
  message : Option MessagePayload
  messageTimestamp : Int
deriving DecidableEq

/-- The normalized inbound message forwarded to the backend
(interface `InboundMessage` in the source). -/
structure InboundMessage where
  id : String
  sender : String
  pn : String
  content : String
  timestamp : Int
  isGroup : Bool
deriving DecidableEq

/-- JavaScript truthiness for an optional string: `undefined` and the empty
string are falsy; a non-empty string is kept. -/
def optTruthy : Option String → Option String
  | none => none
  | some s => if s = "" then none else some s

/-- Shallow embedding of `WhatsAppClient.extractMessageContent`: reduce a raw
payload to a single text field with the source's fixed precedence, or `none`
when no branch applies. -/
def extractMessageContent (msg : WAMessage) : Option String :=
  match msg.message with
  | none => none
  | some message =>
    match optTruthy message.conversation with
    | some t => some t
    | none =>
      match optTruthy (message.extendedTextMessage.bind ExtendedTextMessage.text) with
      | some t => some t
      | none =>
        match optTruthy (message.imageMessage.bind MediaMessage.caption) with
        | some c => some ("[Image] " ++ c)
        | none =>
          match optTruthy (message.videoMessage.bind MediaMessage.caption) with
          | some c => some ("[Video] " ++ c)
          | none =>
            match optTruthy (message.documentMessage.bind MediaMessage.caption) with
            | some c => some ("[Document] " ++ c)
            | none =>
              if message.audioMessage then some ("[Voice Message]") else none

/-- Shallow embedding of the per-message body of the `messages.upsert`
handler: drop own messages, drop the status/broadcast channel, normalize,
drop falsy content, otherwise produce the forwarded `InboundMessage`. -/
def handleUpsertMessage (m : WAMessage) : Option InboundMessage :=
  if m.key.fromMe then none
  else if m.key.remoteJid = some ("status@broadcast") then none
  else
    match extractMessageContent m with
    | none => none
    | some content =>
      if content = "" then none
      else
        some {
          id := m.key.id.getD ""
          sender := m.key.remoteJid.getD ""
          pn := m.key.remoteJidAlt.getD ""
          content := content
          timestamp := m.messageTimestamp
          isGroup := (m.key.remoteJid.map (fun s => s.endsWith ("@g.us"))).getD false
        }

/-- Shallow embedding of the whole `messages.upsert` handler: events emitted
for a batch, in order; non-notify batches are ignored. -/
def messagesUpsert (ty : String) (messages : List WAMessage) : List InboundMessage :=
  if ty = "notify" then messages.filterMap handleUpsertMessage else []

/-- Baileys `DisconnectReason.loggedOut` status code. -/
def loggedOutCode : Nat := 401

/-- Fixed reconnect delay used by the close handler (milliseconds). -/
def reconnectDelayMs : Nat := 5000

/-- Mutable state of `WhatsAppClient` relevant to the modelled operations:
whether a socket object exists and the single-flight reconnect flag. -/
structure WAState where
  sock : Bool
  reconnecting : Bool
deriving DecidableEq

/-- Observable outcome of one `connection.update` close event: the updated
client state, the status events emitted, and the delays of the reconnect
timers scheduled by this event. -/
structure CloseOutcome where
  state : WAState
  statusEvents : List String
  scheduledDelays : List Nat
deriving DecidableEq

/-- Shallow embedding of the `connection === close` branch of the
`connection.update` handler: emit a disconnected status, and schedule one
reconnect after `reconnectDelayMs` unless the status code is the logout code
or a reconnect is already in flight. -/
def handleConnectionClose (s : WAState) (statusCode : Option Nat) : CloseOutcome :=
  let shouldReconnect := statusCode ≠ some loggedOutCode
  if shouldReconnect ∧ s.reconnecting = false then
    { state := { s with reconnecting := true }
      statusEvents := ["disconnected"]
      scheduledDelays := [reconnectDelayMs] }
  else
    { state := s
      statusEvents := ["disconnected"]
      scheduledDelays := [] }

/-- Shallow embedding of `WhatsAppClient.sendMessage`: throw the
`Not connected` error when no socket exists, otherwise hand the message to
the library; the returned list is the outbound traffic produced. -/
def sendMessage (w : WAState) (dest text : String) :
    Except String (List (String × String)) :=
  if w.sock = false then Except.error ("Not connected")
  else Except.ok [(dest, text)]

/-- A peer command as parsed from JSON (interface `SendCommand`); the code
reads only these three fields. -/
structure Cmd where
  ty : String
  dest : String
  text : String
deriving DecidableEq

/-- One raw peer message: either it fails `JSON.parse` (carrying the
`String(error)` text of the parse error) or it parses to a command. -/
inductive PeerData where
  | malformed (errText : String)
  | cmd (c : Cmd)
deriving DecidableEq

/-- JavaScript `String(error)` on an `Error` whose message is `m`. -/
def errString (m : String) : String := "Error: " ++ m

/-- A reply the server sends back to the peer that issued a message:
either the `sent` acknowledgment naming the command's destination or an
`error` envelope. -/
inductive Reply where
  | sent (dest : String)
  | error (err : String)
deriving DecidableEq

/-- Shallow embedding of `BridgeServer.handleCommand`: forward a `send`
command to the adapter when one exists, otherwise do nothing. -/
def handleCommand (wa : Option WAState) (c : Cmd) :
    Except String (List (String × String)) :=
  if c.ty = "send" then
    match wa with
    | some w => sendMessage w c.dest c.text
    | none => Except.ok []
  else Except.ok []

/-- Shallow embedding of the `ws.on message` handler for one peer message:
the replies sent (each tagged with the peer that receives it) and the
outbound traffic handed to the adapter.  The handler only ever writes to
the socket of the peer whose message it is processing. -/
def wsOnMessage (wa : Option WAState) (p : Nat) (d : PeerData) :
    List (Nat × Reply) × List (String × String) :=
  match d with
  | PeerData.malformed e => ([(p, Reply.error e)], [])
  | PeerData.cmd c =>
    match handleCommand wa c with
    | Except.ok out => ([(p, Reply.sent c.dest)], out)
    | Except.error m => ([(p, Reply.error (errString m))], [])

/-- A registered peer channel: its identity and its `ws` ready state. -/
structure PeerConn where
  id : Nat
  readyState : Nat
deriving DecidableEq

/-- The `ws` library's `WebSocket.OPEN` ready-state constant. -/
def WS_OPEN : Nat := 1

/-- The tagged Bridge Event union broadcast to peers. -/
inductive BridgeMsg where
  | message (m : InboundMessage)
  | status (s : String)
  | qr (q : String)
  | error (e : String)
deriving DecidableEq

/-- JSON rendering of a string (escaping of embedded quotes is elided;
no claim depends on it). -/
def jsonStr (s : String) : String := "\"" ++ s ++ "\""

/-- Model of `JSON.stringify` on a Bridge Event envelope. -/
def serializeBridge : BridgeMsg → String
  | BridgeMsg.message m =>
      "\x7b\"type\":\"message\",\"id\":" ++ jsonStr m.id
        ++ ",\"sender\":" ++ jsonStr m.sender
        ++ ",\"pn\":" ++ jsonStr m.pn
        ++ ",\"content\":" ++ jsonStr m.content
        ++ ",\"timestamp\":" ++ toString m.timestamp
        ++ ",\"isGroup\":" ++ (if m.isGroup then "true" else "false") ++ "\x7d"
  | BridgeMsg.status s => "\x7b\"type\":\"status\",\"status\":" ++ jsonStr s ++ "\x7d"
  | BridgeMsg.qr q => "\x7b\"type\":\"qr\",\"qr\":" ++ jsonStr q ++ "\x7d"
  | BridgeMsg.error e => "\x7b\"type\":\"error\",\"error\":" ++ jsonStr e ++ "\x7d"

/-- Shallow embedding of `BridgeServer.broadcast`: serialize the event once
and send the same payload to every registered peer whose channel is OPEN;
others are skipped.  The result lists the deliveries in registration
order. -/
def broadcast (clients : List PeerConn) (msg : BridgeMsg) : List (Nat × String) :=
  let data := serializeBridge msg
  clients.filterMap (fun c =>
    if c.readyState = WS_OPEN then some (c.id, data) else none)

/-- One observable teardown action of `BridgeServer.stop`. -/
inductive StopAction where
  | closePeer (id : Nat)
  | clearPeers
  | closeListener
  | disconnectAdapter
deriving DecidableEq

/-- Mutable state of `BridgeServer`: the listener, the owned adapter and the
registered peer set. -/
structure BridgeServerState where
  wss : Bool
  wa : Option WAState
  clients : List PeerConn
deriving DecidableEq

/-- Shallow embedding of `BridgeServer.stop`: the ordered trace of teardown
actions it performs, and the state it leaves behind. -/
def serverStop (s : BridgeServerState) : List StopAction × BridgeServerState :=
  ((s.clients.map (fun c => StopAction.closePeer c.id)) ++ [StopAction.clearPeers]
      ++ (if s.wss then [StopAction.closeListener] else [])
      ++ (match s.wa with
          | some _ => [StopAction.disconnectAdapter]
          | none => []),
    { wss := false, wa := none, clients := [] })

/-- Helper: a message whose normalization yields nothing produces no
inbound event. -/
theorem handleUpsert_none_of_extract_none (m : WAMessage)
    (h : extractMessageContent m = none) : handleUpsertMessage m = none := by
  unfold handleUpsertMessage
  split
  · rfl
  · split
    · rfl
    · rw [h]

/-- C1: on a connection-close event whose status code is not the logout
code, the handler schedules exactly one automatic reconnect after the fixed
5000 ms delay when no reconnect is in flight (setting the single-flight
flag), schedules none while the flag is set, and a second close event
arriving while the first reconnect is pending schedules nothing. -/
theorem reconnect_single_flight (s : WAState) (code : Option Nat)
    (h : code ≠ some loggedOutCode) :
    reconnectDelayMs = 5000 ∧
    (s.reconnecting = false →
      (handleConnectionClose s code).scheduledDelays = [reconnectDelayMs] ∧
      (handleConnectionClose s code).state.reconnecting = true) ∧
    (s.reconnecting = true →
      (handleConnectionClose s code).scheduledDelays = []) ∧
    (handleConnectionClose (handleConnectionClose s code).state code).scheduledDelays
      = [] := by
  refine ⟨rfl, ?_, ?_, ?_⟩
  · intro hr
    simp [handleConnectionClose, hr, h]
  · intro hr
    simp [handleConnectionClose, hr]
  · by_cases hr : s.reconnecting = true
    · simp [handleConnectionClose, hr]
    · rw [Bool.not_eq_true] at hr
      simp [handleConnectionClose, hr, h]

/-- C1 witness: a non-logout close (status 428) with no reconnect in flight
schedules one reconnect after the fixed delay and sets the flag. -/
theorem reconnect_single_flight_witness :
    (handleConnectionClose (WAState.mk true false) (some 428)).scheduledDelays
        = [reconnectDelayMs] ∧
    (handleConnectionClose (WAState.mk true false) (some 428)).state.reconnecting
        = true :=
  (reconnect_single_flight (WAState.mk true false) (some 428) (by decide)).2.1 rfl

/-- C2: on a connection-close event carrying the logout status code, no
reconnect is scheduled, the client state is left unchanged (no further
connection activity originates from this event), and only the disconnected
status is emitted. -/
theorem logout_no_reconnect (s : WAState) :
    (handleConnectionClose s (some loggedOutCode)).scheduledDelays = [] ∧
    (handleConnectionClose s (some loggedOutCode)).state = s ∧
    (handleConnectionClose s (some loggedOutCode)).statusEvents = ["disconnected"] := by
  simp [handleConnectionClose]

/-- C3: message normalization follows the fixed precedence of the source:
truthy plain text body first, else truthy quoted-reply text, else image
caption rendered as an Image marker, else video, else document, else the
Voice Message literal when an audio part is present, and otherwise the
message is dropped and no inbound event is emitted. -/
theorem extract_precedence (k : MsgKey) (ts : Int) (p : MessagePayload) :
    (∀ t, optTruthy p.conversation = some t →
      extractMessageContent (WAMessage.mk k (some p) ts) = some t) ∧
    (optTruthy p.conversation = none →
      ∀ t, optTruthy (p.extendedTextMessage.bind ExtendedTextMessage.text) = some t →
      extractMessageContent (WAMessage.mk k (some p) ts) = some t) ∧
    (optTruthy p.conversation = none →
      optTruthy (p.extendedTextMessage.bind ExtendedTextMessage.text) = none →
      ∀ c, optTruthy (p.imageMessage.bind MediaMessage.caption) = some c →
      extractMessageContent (WAMessage.mk k (some p) ts) = some ("[Image] " ++ c)) ∧
    (optTruthy p.conversation = none →
      optTruthy (p.extendedTextMessage.bind ExtendedTextMessage.text) = none →
      optTruthy (p.imageMessage.bind MediaMessage.caption) = none →
      ∀ c, optTruthy (p.videoMessage.bind MediaMessage.caption) = some c →
      extractMessageContent (WAMessage.mk k (some p) ts) = some ("[Video] " ++ c)) ∧
    (optTruthy p.conversation = none →
      optTruthy (p.extendedTextMessage.bind ExtendedTextMessage.text) = none →
      optTruthy (p.imageMessage.bind MediaMessage.caption) = none →
      optTruthy (p.videoMessage.bind MediaMessage.caption) = none →
      ∀ c, optTruthy (p.documentMessage.bind MediaMessage.caption) = some c →
      extractMessageContent (WAMessage.mk k (some p) ts) = some ("[Document] " ++ c)) ∧
    (optTruthy p.conversation = none →
      optTruthy (p.extendedTextMessage.bind ExtendedTextMessage.text) = none →
      optTruthy (p.imageMessage.bind MediaMessage.caption) = none →
      optTruthy (p.videoMessage.bind MediaMessage.caption) = none →
      optTruthy (p.documentMessage.bind MediaMessage.caption) = none →
      p.audioMessage = true →
      extractMessageContent (WAMessage.mk k (some p) ts) = some ("[Voice Message]")) ∧
    (optTruthy p.conversation = none →
      optTruthy (p.extendedTextMessage.bind ExtendedTextMessage.text) = none →
      optTruthy (p.imageMessage.bind MediaMessage.caption) = none →
      optTruthy (p.videoMessage.bind MediaMessage.caption) = none →
      optTruthy (p.documentMessage.bind MediaMessage.caption) = none →
      p.audioMessage = false →
      extractMessageContent (WAMessage.mk k (some p) ts) = none ∧
      handleUpsertMessage (WAMessage.mk k (some p) ts) = none) := by
  refine ⟨?_, ?_, ?_, ?_, ?_, ?_, ?_⟩
  · intro t h1
    simp [extractMessageContent, h1]
  · intro h1 t h2
    simp [extractMessageContent, h1, h2]
  · intro h1 h2 c h3
    simp [extractMessageContent, h1, h2, h3]
  · intro h1 h2 h3 c h4
    simp [extractMessageContent, h1, h2, h3, h4]
  · intro h1 h2 h3 h4 c h5
    simp [extractMessageContent, h1, h2, h3, h4, h5]
  · intro h1 h2 h3 h4 h5 h6
    simp [extractMessageContent, h1, h2, h3, h4, h5, h6]
  · intro h1 h2 h3 h4 h5 h6
    have he : extractMessageContent (WAMessage.mk k (some p) ts) = none := by
      simp [extractMessageContent, h1, h2, h3, h4, h5, h6]
    exact ⟨he, handleUpsert_none_of_extract_none _ he⟩

/-- C3 witness: a payload with only a captioned image yields exactly the
Image marker with the caption, and a voice-only payload yields exactly the
Voice Message literal. -/
theorem extract_precedence_witness :
    extractMessageContent (WAMessage.mk (MsgKey.mk false none none none)
        (some (MessagePayload.mk none none (some (MediaMessage.mk (some ("cap"))))
          none none false)) 0)
      = some ("[Image] cap") ∧
    extractMessageContent (WAMessage.mk (MsgKey.mk false none none none)
        (some (MessagePayload.mk none none none none none true)) 0)
      = some ("[Voice Message]") :=
  ⟨(extract_precedence (MsgKey.mk false none none none) 0
      (MessagePayload.mk none none (some (MediaMessage.mk (some ("cap")))) none none
        false)).2.2.1 (by decide) (by decide) ("cap") (by decide),
   (extract_precedence (MsgKey.mk false none none none) 0
      (MessagePayload.mk none none none none none true)).2.2.2.2.2.1
        (by decide) (by decide) (by decide) (by decide) (by decide) rfl⟩

/-- C7: a self-sent message or a message from the status/broadcast channel
(remote JID status at broadcast) never produces an inbound event, whatever
the payload: it is dropped before normalization. -/
theorem self_and_status_dropped (m : WAMessage)
    (h : m.key.fromMe = true ∨ m.key.remoteJid = some ("status@broadcast")) :
    handleUpsertMessage m = none ∧ ∀ ty, messagesUpsert ty [m] = [] := by
  have hm : handleUpsertMessage m = none := by
    rcases h with h | h
    · simp [handleUpsertMessage, h]
    · unfold handleUpsertMessage
      split
      · rfl
      · simp [h]
  refine ⟨hm, fun ty => ?_⟩
  unfold messagesUpsert
  split
  · simp [hm]
  · rfl

/-- C7 witness: a self-sent plain-text message produces no inbound event. -/
theorem self_and_status_dropped_witness :
    handleUpsertMessage (WAMessage.mk (MsgKey.mk true (some ("5@x")) none none)
        (some (MessagePayload.mk (some ("hello")) none none none none false)) 3)
      = none :=
  (self_and_status_dropped (WAMessage.mk (MsgKey.mk true (some ("5@x")) none none)
      (some (MessagePayload.mk (some ("hello")) none none none none false)) 3)
    (Or.inl rfl)).1

/-- C10: a payload whose text, reply text and media captions are all absent
or empty (JS-falsy) and which has no audio part is dropped entirely:
normalization yields nothing and no inbound event is emitted; in particular
a captionless or empty-caption image, video or document produces no bare
marker. -/
theorem media_without_caption_dropped (k : MsgKey) (ts : Int) (p : MessagePayload)
    (h1 : optTruthy p.conversation = none)
    (h2 : optTruthy (p.extendedTextMessage.bind ExtendedTextMessage.text) = none)
    (h3 : optTruthy (p.imageMessage.bind MediaMessage.caption) = none)
    (h4 : optTruthy (p.videoMessage.bind MediaMessage.caption) = none)
    (h5 : optTruthy (p.documentMessage.bind MediaMessage.caption) = none)
    (h6 : p.audioMessage = false) :
    extractMessageContent (WAMessage.mk k (some p) ts) = none ∧
    handleUpsertMessage (WAMessage.mk k (some p) ts) = none := by
  have he : extractMessageContent (WAMessage.mk k (some p) ts) = none := by
    simp [extractMessageContent, h1, h2, h3, h4, h5, h6]
  exact ⟨he, handleUpsert_none_of_extract_none _ he⟩

/-- C10 witness: an image message with an empty caption and nothing else is
dropped with no event. -/
theorem media_without_caption_dropped_witness :
    extractMessageContent (WAMessage.mk (MsgKey.mk false none none none)
        (some (MessagePayload.mk none none (some (MediaMessage.mk (some (""))))
          none none false)) 0) = none ∧
    handleUpsertMessage (WAMessage.mk (MsgKey.mk false none none none)
        (some (MessagePayload.mk none none (some (MediaMessage.mk (some (""))))
          none none false)) 0) = none :=
  media_without_caption_dropped (MsgKey.mk false none none none) 0
    (MessagePayload.mk none none (some (MediaMessage.mk (some ("")))) none none false)
    (by decide) (by decide) (by decide) (by decide) (by decide) rfl

/-- Helper: exactly when `handleCommand` throws, the command was a `send`,
an adapter existed, its socket was absent, and the error is the
`Not connected` message. -/
theorem handleCommand_error_iff (wa : Option WAState) (c : Cmd) (m : String) :
    handleCommand wa c = Except.error m ↔
      c.ty = "send" ∧ ∃ w, wa = some w ∧ w.sock = false ∧ m = "Not connected" := by
  constructor
  · intro h
    by_cases hty : c.ty = "send"
    · cases wa with
      | none => simp [handleCommand, hty] at h
      | some w =>
        by_cases hs : w.sock = false
        · simp [handleCommand, hty, sendMessage, hs] at h
          exact ⟨hty, w, rfl, hs, h.symm⟩
        · rw [Bool.not_eq_false] at hs
          simp [handleCommand, hty, sendMessage, hs] at h
    · simp [handleCommand, hty] at h
  · rintro ⟨hty, w, rfl, hs, rfl⟩
    simp [handleCommand, hty, sendMessage, hs]

/-- C4: `sendMessage` throws the `Not connected` error exactly when no
socket exists, and otherwise hands exactly the requested message to the
library; a peer issuing a `send` command while the adapter has no socket
receives a single error reply carrying the `Not connected` message and no
outbound traffic is produced. -/
theorem send_requires_connection (w : WAState) (dest text : String)
    (p : Nat) (c : Cmd) :
    (sendMessage w dest text = Except.error ("Not connected") ↔ w.sock = false) ∧
    (w.sock = true → sendMessage w dest text = Except.ok [(dest, text)]) ∧
    (∀ w0 : WAState, c.ty = "send" → w0.sock = false →
      wsOnMessage (some w0) p (PeerData.cmd c)
        = ([(p, Reply.error (errString ("Not connected")))], [])) := by
  refine ⟨⟨?_, ?_⟩, ?_, ?_⟩
  · intro h
    by_cases hs : w.sock = false
    · exact hs
    · rw [Bool.not_eq_false] at hs
      simp [sendMessage, hs] at h
  · intro h
    simp [sendMessage, h]
  · intro h
    simp [sendMessage, h]
  · intro w0 hty hs
    simp [wsOnMessage, handleCommand, hty, sendMessage, hs]

/-- C4 witness: on a `send` command with the adapter present but no socket,
the issuing peer gets exactly the error reply and nothing goes out. -/
theorem send_requires_connection_witness :
    wsOnMessage (some (WAState.mk false false)) 0
        (PeerData.cmd (Cmd.mk ("send") ("1234@x") ("hi")))
      = ([(0, Reply.error (errString ("Not connected")))], []) :=
  (send_requires_connection (WAState.mk false false) ("1234@x") ("hi") 0
      (Cmd.mk ("send") ("1234@x") ("hi"))).2.2 (WAState.mk false false) rfl rfl

/-- C5: a syntactically valid `send` command yields exactly one reply, sent
to the issuing peer only (a `sent` acknowledgment naming the destination or
an `error` envelope), and a malformed peer message yields exactly one error
reply to that same peer with no outbound traffic. -/
theorem peer_reply_isolation (wa : Option WAState) (p : Nat) (c : Cmd)
    (e : String) (_h : c.ty = "send") :
    (∃ r, (wsOnMessage wa p (PeerData.cmd c)).1 = [(p, r)] ∧
      (r = Reply.sent c.dest ∨ ∃ m, r = Reply.error m)) ∧
    (∀ q r, (q, r) ∈ (wsOnMessage wa p (PeerData.cmd c)).1 → q = p) ∧
    (wsOnMessage wa p (PeerData.malformed e) = ([(p, Reply.error e)], [])) := by
  have hmain : ∃ r, (wsOnMessage wa p (PeerData.cmd c)).1 = [(p, r)] ∧
      (r = Reply.sent c.dest ∨ ∃ m, r = Reply.error m) := by
    cases hh : handleCommand wa c with
    | ok out => exact ⟨Reply.sent c.dest, by simp [wsOnMessage, hh], Or.inl rfl⟩
    | error m => exact ⟨Reply.error (errString m), by simp [wsOnMessage, hh],
        Or.inr ⟨errString m, rfl⟩⟩
  obtain ⟨r, hr, hor⟩ := hmain
  refine ⟨⟨r, hr, hor⟩, ?_, by simp [wsOnMessage]⟩
  intro q r' hq
  rw [hr] at hq
  simp at hq
  exact hq.1

/-- C5 witness: a malformed peer message gets exactly one error reply to
that peer and the adapter is untouched. -/
theorem peer_reply_isolation_witness :
    wsOnMessage (some (WAState.mk true false)) 9
        (PeerData.malformed ("SyntaxError: bad"))
      = ([(9, Reply.error ("SyntaxError: bad"))], []) :=
  (peer_reply_isolation (some (WAState.mk true false)) 9
      (Cmd.mk ("send") ("a") ("b")) ("SyntaxError: bad") rfl).2.2

/-- C9: every parsed peer command gets exactly one reply; a command whose
type is not `send`, or one arriving while no adapter exists, takes no
action at all yet still receives the `sent` acknowledgment naming its
destination field; an error reply occurs only when forwarding to the
adapter throws, namely when the command is a `send` and the adapter has no
socket. -/
theorem uniform_sent_ack (wa : Option WAState) (p : Nat) (c : Cmd) :
    ((wsOnMessage wa p (PeerData.cmd c)).1.length = 1) ∧
    (c.ty ≠ "send" →
      wsOnMessage wa p (PeerData.cmd c) = ([(p, Reply.sent c.dest)], [])) ∧
    (wa = none →
      wsOnMessage wa p (PeerData.cmd c) = ([(p, Reply.sent c.dest)], [])) ∧
    (∀ q m, (q, Reply.error m) ∈ (wsOnMessage wa p (PeerData.cmd c)).1 →
      c.ty = "send" ∧ ∃ w, wa = some w ∧ w.sock = false ∧
        m = errString ("Not connected")) := by
  refine ⟨?_, ?_, ?_, ?_⟩
  · cases hh : handleCommand wa c <;> simp [wsOnMessage, hh]
  · intro hty
    simp [wsOnMessage, handleCommand, hty]
  · rintro rfl
    simp [wsOnMessage, handleCommand]
  · intro q m hq
    cases hh : handleCommand wa c with
    | ok out => simp [wsOnMessage, hh] at hq
    | error msg =>
      simp [wsOnMessage, hh] at hq
      obtain ⟨hty, w, hwa, hs, hm⟩ := (handleCommand_error_iff wa c msg).mp hh
      exact ⟨hty, w, hwa, hs, by rw [hq.2, hm]⟩

/-- C9 witness: an unknown-kind command with a live adapter takes no action
and is still acknowledged with `sent` naming its destination. -/
theorem uniform_sent_ack_witness :
    wsOnMessage (some (WAState.mk true false)) 2
        (PeerData.cmd (Cmd.mk ("ping") ("z") ("")))
      = ([(2, Reply.sent ("z"))], []) :=
  (uniform_sent_ack (some (WAState.mk true false)) 2
      (Cmd.mk ("ping") ("z") (""))).2.1 (by decide)

/-- Helper: a delivery occurs in a broadcast exactly when its payload is
the once-serialized event and its target is a registered peer whose channel
is OPEN. -/
theorem mem_broadcast_iff (clients : List PeerConn) (msg : BridgeMsg)
    (i : Nat) (s : String) :
    (i, s) ∈ broadcast clients msg ↔
      s = serializeBridge msg ∧
        ∃ c ∈ clients, c.id = i ∧ c.readyState = WS_OPEN := by
  unfold broadcast
  rw [List.mem_filterMap]
  constructor
  · rintro ⟨c, hc, hif⟩
    by_cases ho : c.readyState = WS_OPEN
    · rw [if_pos ho, Option.some.injEq, Prod.mk.injEq] at hif
      exact ⟨hif.2.symm, c, hc, hif.1, ho⟩
    · rw [if_neg ho] at hif
      exact absurd hif (Option.noConfusion)
  · rintro ⟨rfl, c, hc, hid, ho⟩
    exact ⟨c, hc, by rw [if_pos ho, hid]⟩

/-- Helper: under distinct peer identities, each OPEN registered peer
receives the serialized event exactly once per broadcast. -/
theorem broadcast_count_one (clients : List PeerConn) (msg : BridgeMsg)
    (hnd : (clients.map PeerConn.id).Nodup) :
    ∀ c ∈ clients, c.readyState = WS_OPEN →
      (broadcast clients msg).count (c.id, serializeBridge msg) = 1 := by
  induction clients with
  | nil =>
    intro c hc
    exact absurd hc (List.not_mem_nil c)
  | cons a l ih =>
    intro c hc ho
    rw [List.map_cons, List.nodup_cons] at hnd
    obtain ⟨ha, hl⟩ := hnd
    rcases List.mem_cons.mp hc with rfl | hc
    · have hb : broadcast (c :: l) msg
          = (c.id, serializeBridge msg) :: broadcast l msg := by
        simp [broadcast, ho]
      have h0 : (broadcast l msg).count (c.id, serializeBridge msg) = 0 := by
        rw [List.count_eq_zero]
        intro hmem
        obtain ⟨_, c', hc', hid, _⟩ :=
          (mem_broadcast_iff l msg c.id (serializeBridge msg)).mp hmem
        exact ha (hid ▸ List.mem_map_of_mem PeerConn.id hc')
      rw [hb, List.count_cons_self, h0]
    · have hcount := ih hl c hc ho
      have hne : a.id ≠ c.id := by
        intro he
        exact ha (he ▸ List.mem_map_of_mem PeerConn.id hc)
      by_cases hao : a.readyState = WS_OPEN
      · have hb : broadcast (a :: l) msg
            = (a.id, serializeBridge msg) :: broadcast l msg := by
          simp [broadcast, hao]
        have hpne : (c.id, serializeBridge msg) ≠ (a.id, serializeBridge msg) := by
          simp only [ne_eq, Prod.mk.injEq, not_and]
          intro he
          exact absurd he.symm hne
        rw [hb, List.count_cons_of_ne hpne, hcount]
      · have hb : broadcast (a :: l) msg = broadcast l msg := by
          simp [broadcast, hao]
        rw [hb, hcount]

/-- C6: a broadcast serializes the Bridge Event once (every delivered
payload is that same serialization) and sends it to every registered peer
whose channel is OPEN exactly once, while a peer whose channel is not OPEN
receives nothing from that broadcast (skipped, not retried, not queued),
and nothing is delivered outside the registration set. -/
theorem broadcast_semantics (clients : List PeerConn) (msg : BridgeMsg)
    (hnd : (clients.map PeerConn.id).Nodup) :
    (∀ c ∈ clients, c.readyState = WS_OPEN →
      (broadcast clients msg).count (c.id, serializeBridge msg) = 1) ∧
    (∀ c ∈ clients, c.readyState ≠ WS_OPEN →
      ∀ s, (c.id, s) ∉ broadcast clients msg) ∧
    (∀ pr ∈ broadcast clients msg, pr.2 = serializeBridge msg ∧
      ∃ c ∈ clients, c.id = pr.1 ∧ c.readyState = WS_OPEN) := by
  refine ⟨broadcast_count_one clients msg hnd, ?_, ?_⟩
  · intro c hc hno s hmem
    obtain ⟨_, c', hc', hid, ho'⟩ := (mem_broadcast_iff clients msg c.id s).mp hmem
    have hcc : c' = c := List.inj_on_of_nodup_map hnd hc' hc hid
    exact hno (hcc ▸ ho')
  · rintro ⟨i, s⟩ hmem
    obtain ⟨hs, c, hc, hid, ho⟩ := (mem_broadcast_iff clients msg i s).mp hmem
    exact ⟨hs, c, hc, hid, ho⟩

/-- C6 witness: with one OPEN peer and one non-OPEN peer registered, the
OPEN peer receives the serialized event exactly once. -/
theorem broadcast_semantics_witness :
    (broadcast [PeerConn.mk 1 WS_OPEN, PeerConn.mk 2 0] (BridgeMsg.qr ("abc"))).count
        ((PeerConn.mk 1 WS_OPEN).id, serializeBridge (BridgeMsg.qr ("abc"))) = 1 :=
  (broadcast_semantics [PeerConn.mk 1 WS_OPEN, PeerConn.mk 2 0]
      (BridgeMsg.qr ("abc")) (by decide)).1 (PeerConn.mk 1 WS_OPEN)
    (by decide) rfl

/-- C8: with the listener up and an adapter owned, `stop` performs its
teardown as the trace that closes every peer connection first, then clears
the registry, then closes the listener, then disconnects the adapter, and
leaves the server with no peers, no listener and no adapter. -/
theorem stop_ordering (s : BridgeServerState) (w : WAState)
    (h1 : s.wss = true) (h2 : s.wa = some w) :
    (serverStop s).1
      = (s.clients.map (fun c => StopAction.closePeer c.id))
        ++ [StopAction.clearPeers, StopAction.closeListener,
            StopAction.disconnectAdapter] ∧
    (serverStop s).2 = BridgeServerState.mk false none [] := by
  constructor
  · simp [serverStop, h1, h2]
  · rfl

/-- C8 witness: stopping a server with one registered peer closes that peer,
clears the set, closes the listener and disconnects the adapter, in that
order. -/
theorem stop_ordering_witness :
    (serverStop (BridgeServerState.mk true (some (WAState.mk true false))
        [PeerConn.mk 4 WS_OPEN])).1
      = [StopAction.closePeer 4, StopAction.clearPeers, StopAction.closeListener,
         StopAction.disconnectAdapter] := by
  simpa using (stop_ordering (BridgeServerState.mk true (some (WAState.mk true false))
      [PeerConn.mk 4 WS_OPEN]) (WAState.mk true false) rfl rfl).1

